import Mathlib

/-!
Verification of the LLM-Node supervisor core against its specification.

Each definition below is a shallow embedding of a function of the repository
(paths refer to the repository sources): pure Python helpers become Lean
functions, the mutable per-model state dictionary becomes an explicit record
that the embedded operations thread through, and collaborator calls whose
results the core merely branches on (process spawn, health probe, resource
gate verdict) become explicit oracle fields of an environment record.
-/

namespace LLMNode

/-! ## Python string containment (`needle in hay`) -/

/-- Whether the first character list is an initial segment of the second. -/
def leadsChars : List Char → List Char → Bool
  | [], _ => true
  | _ :: _, [] => false
  | a :: as, b :: bs => a == b && leadsChars as bs

/-- Whether the first character list occurs contiguously inside the second. -/
def charsContain (needle : List Char) : List Char → Bool
  | [] => needle.isEmpty
  | h :: t => leadsChars needle (h :: t) || charsContain needle t

/-- Python's substring test `needle in hay`. -/
def pyIn (needle hay : String) : Bool := charsContain needle.toList hay.toList

/-! ## Interface plugins: per-mode request validators

`plugins/interfaces/chat.py`, `ChatInterface.validate_request` (lines 67-74):
rejects a path iff the substring `v1/completions` occurs in it.
`plugins/interfaces/embedding.py`, `EmbeddingInterface.validate_request`
(lines 66-74): rejects a path iff `v1/chat/completions` or `v1/completions`
occurs in it.  Error messages abbreviated to their fixed parts. -/

def chat_validate_request (path modelAlias : String) : Bool × String :=
  let isCompletionEndpoint := pyIn "v1/completions" path
  if isCompletionEndpoint then
    (false, "模型 " ++ modelAlias ++ " 是 Chat 模式, 不支持文本补全接口")
  else
    (true, "")

def embedding_validate_request (path modelAlias : String) : Bool × String :=
  let isChatEndpoint := pyIn "v1/chat/completions" path
  let isCompletionEndpoint := pyIn "v1/completions" path
  if isChatEndpoint || isCompletionEndpoint then
    (false, "模型 " ++ modelAlias ++ " 是 Embedding 模式, 不支持聊天或文本补全接口")
  else
    (true, "")

/-- C6 counterexample: the Chat validator ACCEPTS the embeddings path
`/v1/embeddings` (the claim says it must reject it); it only looks for the
substring `v1/completions`, which `/v1/embeddings` does not contain. -/
theorem chat_validator_accepts_embeddings_path :
    (chat_validate_request "/v1/embeddings" "m").1 = true := by decide

/-- C6 (amended): the Chat validator rejects exactly the paths containing the
substring `v1/completions` (legacy text completion; note `/v1/chat/completions`
does not contain it), and in particular accepts `/v1/embeddings`; the
Embedding validator rejects every path containing `v1/chat/completions`. -/
theorem validators_cross_mode (modelAlias : String) :
    ((chat_validate_request "/v1/embeddings" modelAlias).1 = true) ∧
    (∀ path, (chat_validate_request path modelAlias).1 = false ↔
      pyIn "v1/completions" path = true) ∧
    (∀ path, pyIn "v1/chat/completions" path = true →
      (embedding_validate_request path modelAlias).1 = false) := by
  refine ⟨rfl, fun path => ?_, fun path h => ?_⟩
  · cases hc : pyIn "v1/completions" path with
    | true => simp [chat_validate_request, hc]
    | false => simp [chat_validate_request, hc]
  · simp [embedding_validate_request, h]

/-- C6 witness: the amended theorem applied at the concrete model name `e`
and the concrete chat path, with the substring hypothesis discharged. -/
theorem validators_cross_mode_witness :
    (chat_validate_request "/v1/embeddings" "e").1 = true ∧
    (embedding_validate_request "/v1/chat/completions" "e").1 = false :=
  ⟨(validators_cross_mode "e").1,
   (validators_cross_mode "e").2.2 "/v1/chat/completions" (by decide)⟩

/-! ## Config manager: adaptive config selector

`core/config_manager.py`, `ConfigManager.get_adaptive_model_config`
(lines 68-94).  A model entry is a YAML mapping in definition order; a value
is either a plain (non-dict) value — or a dict without `required_devices`,
which the selector skips and the run-config build deletes exactly like a
plain value — or a variant block (a dict containing `required_devices`,
which per `validate_config` also carries `script_path` and `memory_mb`). -/

inductive PlainVal where
  | pstr (s : String)
  | pnat (n : Nat)
  | pbool (b : Bool)
  | plist (l : List String)
deriving DecidableEq, Repr

structure Variant where
  required_devices : List String
  script_path : String
  memory_mb : List (String × Nat)
deriving DecidableEq, Repr

inductive EntryVal where
  | plain (v : PlainVal)
  | variant (v : Variant)
deriving DecidableEq, Repr

/-- A model entry: the YAML mapping as an association list in definition
order (keys are unique in a YAML mapping). -/
abbrev ModelEntry := List (String × EntryVal)

/-- `set(a).issubset(set(b))` on device-name lists. -/
def subsetOf (a b : List String) : Bool := a.all (fun d => b.contains d)

/-- The model-level keys kept in the run config
(`if k not in ["aliases", "mode", "port", "auto_start"]: del run_cfg[k]`). -/
def topLevelKeys : List String := ["aliases", "mode", "port", "auto_start"]

/-- A run-config value: either a value propagated from the model entry or
the variant's `memory_mb` map. -/
inductive RunVal where
  | fromEntry (v : EntryVal)
  | mem (m : List (String × Nat))
deriving DecidableEq, Repr

abbrev RunConfig := List (String × RunVal)

/-- The run config built from the chosen variant `(key, v)`:
`run_cfg = base_config.copy()` with every key outside `topLevelKeys`
deleted, then `run_cfg.update({script_path, memory_mb, required_devices,
config_source: key})` — the four new keys are appended in update order. -/
def buildRunConfig (entry : ModelEntry) (key : String) (v : Variant) : RunConfig :=
  (entry.filter (fun kv => topLevelKeys.contains kv.1)).map
      (fun kv => (kv.1, RunVal.fromEntry kv.2))
    ++ [("script_path", RunVal.fromEntry (EntryVal.plain (PlainVal.pstr v.script_path))),
        ("memory_mb", RunVal.mem v.memory_mb),
        ("required_devices", RunVal.fromEntry (EntryVal.plain (PlainVal.plist v.required_devices))),
        ("config_source", RunVal.fromEntry (EntryVal.plain (PlainVal.pstr key)))]

/-- The `for key, val in base_config.items()` loop of
`get_adaptive_model_config`: return on the first variant block whose
`required_devices` is a subset of `online`. -/
def adaptiveLoop (entry : ModelEntry) (online : List String) :
    List (String × EntryVal) → Option RunConfig
  | [] => none
  | (_, EntryVal.plain _) :: rest => adaptiveLoop entry online rest
  | (key, EntryVal.variant v) :: rest =>
    if subsetOf v.required_devices online then some (buildRunConfig entry key v)
    else adaptiveLoop entry online rest

def get_adaptive_model_config (entry : ModelEntry) (online : List String) :
    Option RunConfig :=
  adaptiveLoop entry online entry

/-- The variant blocks of an entry, in definition order. -/
def variantsOf (entry : ModelEntry) : List (String × Variant) :=
  entry.filterMap (fun kv => match kv.2 with
    | EntryVal.variant v => some (kv.1, v)
    | EntryVal.plain _ => none)

/-- Modelled from the spec wording of P7: the first variant block (in
definition order) whose required devices are all online. -/
def firstMatchingVariant (entry : ModelEntry) (online : List String) :
    Option (String × Variant) :=
  (variantsOf entry).find? (fun kv => subsetOf kv.2.required_devices online)

theorem adaptiveLoop_eq_firstMatching (entry : ModelEntry) (online : List String) :
    ∀ l : List (String × EntryVal),
      adaptiveLoop entry online l =
        ((l.filterMap (fun kv => match kv.2 with
            | EntryVal.variant v => some (kv.1, v)
            | EntryVal.plain _ => none)).find?
          (fun kv => subsetOf kv.2.required_devices online)).map
          (fun kv => buildRunConfig entry kv.1 kv.2) := by
  intro l
  induction l with
  | nil => rfl
  | cons kv rest ih =>
    obtain ⟨k, v⟩ := kv
    cases v with
    | plain p => simpa [adaptiveLoop] using ih
    | variant w =>
      by_cases h : subsetOf w.required_devices online = true
      · simp [adaptiveLoop, h, List.find?]
      · simp only [adaptiveLoop, h, if_false, List.filterMap_cons, List.find?,
          Bool.not_eq_true] at *
        simp [h, ih]

/-- Keys of the run config built from a chosen variant. -/
theorem buildRunConfig_keys (entry : ModelEntry) (key : String) (v : Variant) :
    ∀ k, k ∈ (buildRunConfig entry key v).map Prod.fst ↔
      ((topLevelKeys.contains k = true ∧ k ∈ entry.map Prod.fst) ∨
        k ∈ (["script_path", "memory_mb", "required_devices", "config_source"] : List String)) := by
  intro k
  simp only [buildRunConfig, List.map_append, List.mem_append, List.map_map]
  constructor
  · rintro (hl | hr)
    · left
      simp only [List.mem_map, List.mem_filter, Function.comp] at hl
      obtain ⟨kv, ⟨hmem, hkeep⟩, hfst⟩ := hl
      refine ⟨by simpa [hfst] using hkeep, ?_⟩
      exact List.mem_map.mpr ⟨kv, hmem, hfst⟩
    · right; simpa using hr
  · rintro (⟨hkeep, hmem⟩ | hfour)
    · left
      obtain ⟨kv, hkv, hfst⟩ := List.mem_map.mp hmem
      refine List.mem_map.mpr ⟨kv, List.mem_filter.mpr ⟨hkv, by simpa [hfst] using hkeep⟩, hfst⟩
    · right; simpa using hfour

/-- C5: the adaptive config selector returns the run config built from the
first variant block (in definition order) whose `required_devices` are a
subset of the online set, returns `none` when no variant qualifies, and the
returned run config's keys are exactly the entry's keys among
{aliases, mode, port, auto_start} plus {script_path, memory_mb,
required_devices, config_source} (with `config_source` = the variant key). -/
theorem get_adaptive_model_config_correct (entry : ModelEntry) (online : List String) :
    (get_adaptive_model_config entry online =
      (firstMatchingVariant entry online).map (fun kv => buildRunConfig entry kv.1 kv.2)) ∧
    (firstMatchingVariant entry online = none →
      get_adaptive_model_config entry online = none) ∧
    (∀ key v, firstMatchingVariant entry online = some (key, v) →
      get_adaptive_model_config entry online = some (buildRunConfig entry key v) ∧
      ∀ k, k ∈ (buildRunConfig entry key v).map Prod.fst ↔
        ((topLevelKeys.contains k = true ∧ k ∈ entry.map Prod.fst) ∨
          k ∈ (["script_path", "memory_mb", "required_devices", "config_source"] : List String))) := by
  have hmain : get_adaptive_model_config entry online =
      (firstMatchingVariant entry online).map (fun kv => buildRunConfig entry kv.1 kv.2) :=
    adaptiveLoop_eq_firstMatching entry online entry
  refine ⟨hmain, fun hnone => by simp [hmain, hnone], fun key v hsome => ?_⟩
  exact ⟨by simp [hmain, hsome], buildRunConfig_keys entry key v⟩

/-- A concrete model entry: one Chat model with a single CPU variant. -/
def exEntry : ModelEntry :=
  [("aliases", EntryVal.plain (PlainVal.plist ["m"])),
   ("mode", EntryVal.plain (PlainVal.pstr "Chat")),
   ("port", EntryVal.plain (PlainVal.pnat 9000)),
   ("auto_start", EntryVal.plain (PlainVal.pbool false)),
   ("cpu_cfg", EntryVal.variant ⟨["CPU"], "run.sh", [("CPU", 2048)]⟩)]

/-- C5 witness: the theorem applied at the concrete entry with `CPU` online;
the selector picks the `cpu_cfg` variant and `port` is among the run-config
keys. -/
theorem get_adaptive_model_config_correct_witness :
    (get_adaptive_model_config exEntry ["CPU"] =
      (firstMatchingVariant exEntry ["CPU"]).map (fun kv => buildRunConfig exEntry kv.1 kv.2)) ∧
    (get_adaptive_model_config exEntry ["CPU"] =
      some (buildRunConfig exEntry "cpu_cfg" ⟨["CPU"], "run.sh", [("CPU", 2048)]⟩)) ∧
    ("port" ∈ (buildRunConfig exEntry "cpu_cfg" ⟨["CPU"], "run.sh", [("CPU", 2048)]⟩).map Prod.fst ↔
      ((topLevelKeys.contains "port" = true ∧ "port" ∈ exEntry.map Prod.fst) ∨
        "port" ∈ (["script_path", "memory_mb", "required_devices", "config_source"] : List String))) :=
  ⟨(get_adaptive_model_config_correct exEntry ["CPU"]).1,
   ((get_adaptive_model_config_correct exEntry ["CPU"]).2.2 "cpu_cfg"
      ⟨["CPU"], "run.sh", [("CPU", 2048)]⟩ (by decide)).1,
   ((get_adaptive_model_config_correct exEntry ["CPU"]).2.2 "cpu_cfg"
      ⟨["CPU"], "run.sh", [("CPU", 2048)]⟩ (by decide)).2 "port"⟩

/-! ## Config manager: alias mapping and resolution

`core/config_manager.py`, `_init_alias_mapping` (lines 36-47) and
`resolve_primary_name` (lines 49-50).  For aliasing only each config entry's
key and its `aliases` list matter (an absent `aliases` key and an empty list
both default to `[key]`).  The nested loop assigns
`map[alias] = aliases[0]` for every alias of every non-`program` entry; a
later assignment to the same alias overwrites an earlier one, so the final
dict value for an alias is the value of the LAST assignment, which we read
off the flattened assignment list with a reversed `find?`. -/

structure AliasEntry where
  key : String
  aliases : List String
deriving DecidableEq, Repr

/-- `aliases = cfg.get("aliases", [key]); if not aliases: aliases = [key]`. -/
def aliasesOf (e : AliasEntry) : List String :=
  if e.aliases.isEmpty then [e.key] else e.aliases

/-- `primary = aliases[0]` (always defined: `aliasesOf` is never empty). -/
def primaryOf (e : AliasEntry) : String := (aliasesOf e).headD ""

/-- The entries the alias loop visits (`if key == "program": continue`). -/
def modelEntries (config : List AliasEntry) : List AliasEntry :=
  config.filter (fun e => e.key != "program")

/-- The flattened `map[alias] = primary` assignments in execution order. -/
def alias_pairs (config : List AliasEntry) : List (String × String) :=
  (modelEntries config).foldr
    (fun e acc => (aliasesOf e).map (fun a => (a, primaryOf e)) ++ acc) []

/-- `self.alias_to_primary_name.get(alias)`: last assignment wins. -/
def alias_lookup (config : List AliasEntry) (x : String) : Option String :=
  ((alias_pairs config).reverse.find? (fun kv => kv.1 == x)).map Prod.snd

/-- `resolve_primary_name`: `self.alias_to_primary_name.get(alias, alias)`. -/
def resolve_primary_name (config : List AliasEntry) (x : String) : String :=
  (alias_lookup config x).getD x

/-- No alias string is shared by two model entries (and alias lists have no
internal conflict): any two entries (possibly the same one) both containing
an alias have the same primary name. -/
def AliasDisjoint (config : List AliasEntry) : Prop :=
  ∀ e1 ∈ modelEntries config, ∀ e2 ∈ modelEntries config,
    ∀ a ∈ aliasesOf e1, a ∈ aliasesOf e2 → primaryOf e1 = primaryOf e2

instance (config : List AliasEntry) : Decidable (AliasDisjoint config) := by
  unfold AliasDisjoint
  infer_instance

theorem aliasesOf_ne_nil (e : AliasEntry) : aliasesOf e ≠ [] := by
  unfold aliasesOf
  split
  · simp
  · rename_i h
    simpa [List.isEmpty_iff] using h

theorem primaryOf_mem (e : AliasEntry) : primaryOf e ∈ aliasesOf e := by
  unfold primaryOf
  cases h : aliasesOf e with
  | nil => exact absurd h (aliasesOf_ne_nil e)
  | cons a l => simp

theorem mem_alias_pairs (config : List AliasEntry) (a p : String) :
    (a, p) ∈ alias_pairs config ↔
      ∃ e ∈ modelEntries config, a ∈ aliasesOf e ∧ p = primaryOf e := by
  unfold alias_pairs
  induction modelEntries config with
  | nil => simp
  | cons e rest ih =>
    simp only [List.foldr_cons, List.mem_append, List.mem_map, List.mem_cons, ih]
    constructor
    · rintro (⟨x, hx, hpair⟩ | ⟨f, hf, hmem, hp⟩)
      · have hxa : x = a := congrArg Prod.fst hpair
        have hpe : primaryOf e = p := congrArg Prod.snd hpair
        exact ⟨e, Or.inl rfl, hxa ▸ hx, hpe.symm⟩
      · exact ⟨f, Or.inr hf, hmem, hp⟩
    · rintro ⟨f, hf | hf, hmem, hp⟩
      · exact Or.inl ⟨a, hf ▸ hmem, by simp [hp, hf]⟩
      · exact Or.inr ⟨f, hf, hmem, hp⟩

theorem alias_lookup_mem (config : List AliasEntry) (x p : String)
    (h : alias_lookup config x = some p) : (x, p) ∈ alias_pairs config := by
  unfold alias_lookup at h
  cases hf : (alias_pairs config).reverse.find? (fun kv => kv.1 == x) with
  | none => simp [hf] at h
  | some kv =>
    have hkv : kv.2 = p := by simpa [hf] using h
    have hmem : kv ∈ (alias_pairs config).reverse := List.mem_of_find?_eq_some hf
    have hfst : kv.1 = x := by
      have := List.find?_some hf
      simpa [beq_iff_eq] using this
    have : kv = (x, p) := by
      cases kv; simp_all
    rw [← this]
    simpa using hmem

theorem alias_lookup_isSome (config : List AliasEntry) (x p : String)
    (h : (x, p) ∈ alias_pairs config) : ∃ q, alias_lookup config x = some q := by
  have hmem : (x, p) ∈ (alias_pairs config).reverse := by simpa using h
  have : ((alias_pairs config).reverse.find? (fun kv => kv.1 == x)).isSome := by
    rw [List.find?_isSome]
    exact ⟨(x, p), hmem, by simp⟩
  cases hf : (alias_pairs config).reverse.find? (fun kv => kv.1 == x) with
  | none => simp [hf] at this
  | some kv => exact ⟨kv.2, by simp [alias_lookup, hf]⟩

theorem alias_pairs_unique (config : List AliasEntry) (h : AliasDisjoint config)
    (x p q : String) (hp : (x, p) ∈ alias_pairs config)
    (hq : (x, q) ∈ alias_pairs config) : p = q := by
  obtain ⟨e1, he1, hm1, hp1⟩ := (mem_alias_pairs config x p).mp hp
  obtain ⟨e2, he2, hm2, hp2⟩ := (mem_alias_pairs config x q).mp hq
  rw [hp1, hp2]
  exact h e1 he1 e2 he2 x hm1 hm2

theorem alias_lookup_fixed (config : List AliasEntry) (h : AliasDisjoint config)
    (x p : String) (hx : alias_lookup config x = some p) :
    alias_lookup config p = some p := by
  have hmem := alias_lookup_mem config x p hx
  obtain ⟨e, he, hmemA, hpE⟩ := (mem_alias_pairs config x p).mp hmem
  have hpp : (p, p) ∈ alias_pairs config :=
    (mem_alias_pairs config p p).mpr ⟨e, he, hpE ▸ primaryOf_mem e, hpE⟩
  obtain ⟨q, hq⟩ := alias_lookup_isSome config p p hpp
  have : q = p :=
    alias_pairs_unique config h p q p (alias_lookup_mem config p q hq) hpp
  rwa [this] at hq

/-- C10: alias resolution is total (a configured alias resolves to the
primary name it was mapped to, and an unknown string resolves to itself;
the lookup never fails) and, provided no alias string is shared by two
model entries, idempotent. -/
theorem resolve_primary_name_total_idempotent (config : List AliasEntry)
    (h : AliasDisjoint config) :
    (∀ x p, alias_lookup config x = some p → resolve_primary_name config x = p) ∧
    (∀ x, alias_lookup config x = none → resolve_primary_name config x = x) ∧
    (∀ x, resolve_primary_name config (resolve_primary_name config x) =
      resolve_primary_name config x) := by
  refine ⟨fun x p hx => by simp [resolve_primary_name, hx],
          fun x hx => by simp [resolve_primary_name, hx],
          fun x => ?_⟩
  cases hx : alias_lookup config x with
  | none => simp [resolve_primary_name, hx]
  | some p =>
    have hfix := alias_lookup_fixed config h x p hx
    simp [resolve_primary_name, hx, hfix]

/-- A concrete config: a `program` section, a model keyed `m1` with aliases
`[alpha, beta]`, and a model keyed `m2` with no aliases. -/
def exAliasConfig : List AliasEntry :=
  [⟨"program", []⟩, ⟨"m1", ["alpha", "beta"]⟩, ⟨"m2", []⟩]

/-- C10 witness: the theorem applied at the concrete config, whose alias
lists are pairwise disjoint, at the concrete alias `beta`. -/
theorem resolve_primary_name_total_idempotent_witness :
    AliasDisjoint exAliasConfig ∧
    resolve_primary_name exAliasConfig
        (resolve_primary_name exAliasConfig "beta") =
      resolve_primary_name exAliasConfig "beta" :=
  ⟨by decide,
   (resolve_primary_name_total_idempotent exAliasConfig (by decide)).2.2 "beta"⟩

/-! ## Model controller: state table and lifecycle

`core/model_controller.py`.  One record per primary name
(`ModelController.__init__`, lines 160-169); `time.time()` values are
modelled as natural-number seconds.  Collaborator calls that the controller
only branches on (startup-lock acquisition, the resource-gate verdict, the
process manager's spawn result, the interface plugin's health probe) are
oracle fields of `StartEnv`; calls issued to the process manager are
recorded as events. -/

inductive Status where
  | stopped
  | starting
  | init_script
  | health_check
  | routing
  | failed
deriving DecidableEq, Repr

structure MState where
  status : Status
  last_access : Option Nat
  pid : Option Nat
  current_config : Option RunConfig
  failure_reason : Option String
deriving DecidableEq, Repr

/-- The initial record built for every primary name. -/
def initialMState : MState :=
  { status := Status.stopped, last_access := none, pid := none,
    current_config := none, failure_reason := none }

/-- A call issued to the process manager. -/
inductive PEvent where
  | stop_process (force : Bool)
deriving DecidableEq, Repr

structure CtrlResult where
  state : MState
  ok : Bool
  msg : String
  events : List PEvent
deriving DecidableEq, Repr

/-- `ModelController.stop_model` (lines 353-369): if already stopped return
success untouched; otherwise set status/failure_reason, issue a forced
`stop_process` when the recorded pid is truthy, and clear pid and
current_config. -/
def stop_model (st : MState) : CtrlResult :=
  if st.status = Status.stopped then
    { state := st, ok := true, msg := "Already stopped", events := [] }
  else
    let events := match st.pid with
      | some p => if p ≠ 0 then [PEvent.stop_process true] else []
      | none => []
    { state := { st with
                   status := Status.stopped
                   failure_reason := some "User requested"
                   pid := none
                   current_config := none },
      ok := true, msg := "Stopped", events := events }

/-- C8: `stop_model` is idempotent — on an already-stopped model it returns
success with every state field unchanged and no process-manager call; on a
model in any other status it returns success and leaves
status = stopped, pid = none and current_config = none. -/
theorem stop_model_idempotent (st : MState) :
    (st.status = Status.stopped →
      stop_model st = { state := st, ok := true, msg := "Already stopped", events := [] }) ∧
    (st.status ≠ Status.stopped →
      (stop_model st).ok = true ∧
      (stop_model st).state.status = Status.stopped ∧
      (stop_model st).state.pid = none ∧
      (stop_model st).state.current_config = none) := by
  constructor
  · intro h
    simp [stop_model, h]
  · intro h
    simp [stop_model, h]

/-- C8 witness: the theorem applied at a concrete stopped record and at a
concrete routing record. -/
theorem stop_model_idempotent_witness :
    (stop_model initialMState =
      { state := initialMState, ok := true, msg := "Already stopped", events := [] }) ∧
    ((stop_model { initialMState with status := Status.routing, pid := some 42 }).state.status =
      Status.stopped) :=
  ⟨(stop_model_idempotent initialMState).1 rfl,
   ((stop_model_idempotent { initialMState with status := Status.routing, pid := some 42 }).2
      (by decide)).2.1⟩

/-! ### Start pipeline -/

structure StartEnv where
  /-- The model's config entry (`config_manager.get_model_config`). -/
  entry : ModelEntry
  /-- `plugin_manager.get_cached_online_devices()`. -/
  online_devices : List String
  /-- `config_manager.is_gpu_monitoring_disabled()`. -/
  gpu_monitoring_disabled : Bool
  /-- Oracle: verdict of `_check_and_free_resources` when GPU monitoring is
  on (the gate returns True unconditionally when it is off). -/
  resource_gate_ok : Bool
  /-- Oracle: `process_manager.start_process` result — a pid or an error. -/
  process_start : Except String Nat
  /-- Oracle: whether `plugin_manager.get_interface_plugin(mode)` found one. -/
  interface_found : Bool
  /-- Oracle: the interface plugin's `health_check` verdict and message. -/
  health_result : Bool × String
  /-- `time.time()` at the moments it is read. -/
  now : Nat
  /-- Oracle: whether `startup_locks[name].acquire(timeout=60)` succeeded. -/
  lock_acquired : Bool
  /-- Oracle: outcome of `_wait_for_model_startup` (a concurrent starter's
  result, not modelled further in this single-thread embedding). -/
  wait_result : Bool × String
deriving Repr

/-- When GPU monitoring is disabled, `_start_model_intelligent`
(lines 229-236) replaces the online set by the union of `required_devices`
over the entry's variant blocks. -/
def unionRequiredDevices (entry : ModelEntry) : List String :=
  entry.foldl (fun acc kv => match kv.2 with
    | EntryVal.variant v => acc ++ v.required_devices
    | EntryVal.plain _ => acc) []

def effectiveOnline (env : StartEnv) : List String :=
  if env.gpu_monitoring_disabled then unionRequiredDevices env.entry
  else env.online_devices

/-- `_perform_health_checks` (lines 338-351): on probe success transition to
routing and refresh `last_access`; on probe failure call `stop_model` and
return the probe's message; without an interface plugin fail in place. -/
def perform_health_checks (env : StartEnv) (st : MState) : CtrlResult :=
  if env.interface_found then
    match env.health_result with
    | (true, _) =>
      { state := { st with status := Status.routing, last_access := some env.now },
        ok := true, msg := "Started", events := [] }
    | (false, msg) =>
      let r := stop_model st
      { state := r.state, ok := false, msg := msg, events := r.events }
  else
    { state := st, ok := false, msg := "No interface plugin", events := [] }

/-- `_start_model_intelligent` (lines 224-277): select a run config (no
match → plain failure return, the status field is NOT touched), publish it
into `current_config`, run the resource gate (failure → plain failure
return, status again untouched), transition to init_script, spawn the child
(failure → plain failure return), record the pid, transition to
health_check and run the probes. -/
def start_model_intelligent (env : StartEnv) (st : MState) : CtrlResult :=
  match get_adaptive_model_config env.entry (effectiveOnline env) with
  | none =>
    { state := st, ok := false, msg := "没有适合当前设备的配置方案", events := [] }
  | some cfg =>
    let st1 := { st with current_config := some cfg }
    if env.gpu_monitoring_disabled || env.resource_gate_ok then
      let st2 := { st1 with status := Status.init_script }
      match env.process_start with
      | Except.error msg => { state := st2, ok := false, msg := msg, events := [] }
      | Except.ok pid =>
        let st3 := { st2 with pid := some pid, status := Status.health_check }
        perform_health_checks env st3
    else
      { state := st1, ok := false, msg := "设备资源不足且无法释放", events := [] }

/-- `start_model` (lines 182-212): fast path on routing, wait path on
starting, lock acquisition with timeout, then set status = starting, clear
failure_reason and run `_start_model_intelligent` (the post-lock routing
recheck cannot fire in this single-thread embedding; the exception handler
that would set status = failed is not reached on the returning paths
modelled here). -/
def start_model (env : StartEnv) (st : MState) : CtrlResult :=
  if st.status = Status.routing then
    { state := { st with last_access := some env.now },
      ok := true, msg := "模型已在运行", events := [] }
  else if st.status = Status.starting then
    { state := st, ok := env.wait_result.1, msg := env.wait_result.2, events := [] }
  else if env.lock_acquired then
    let st1 := { st with status := Status.starting, failure_reason := none }
    start_model_intelligent env st1
  else
    { state := st, ok := false, msg := "获取启动锁超时", events := [] }

/-- A start environment in which no variant matches the online devices. -/
def envNoVariant : StartEnv :=
  { entry := exEntry, online_devices := [], gpu_monitoring_disabled := false,
    resource_gate_ok := true, process_start := Except.ok 4242,
    interface_found := true, health_result := (true, "ok"), now := 1000,
    lock_acquired := true, wait_result := (false, "") }

/-- A start environment in which the resource gate fails. -/
def envGateFail : StartEnv :=
  { entry := exEntry, online_devices := ["CPU"], gpu_monitoring_disabled := false,
    resource_gate_ok := false, process_start := Except.ok 4242,
    interface_found := true, health_result := (true, "ok"), now := 1000,
    lock_acquired := true, wait_result := (false, "") }

/-- C2: the claim fails on the code — when the adaptive selector finds no
variant, or when the resource gate fails, `start_model` returns failure but
the model's status is left at `starting` (the failure returns of
`_start_model_intelligent` never write `status = failed`; only the
exception handler does), so the model is NOT in `failed` when the call
returns. -/
theorem start_model_failure_leaves_starting :
    ((start_model envNoVariant initialMState).ok = false ∧
      (start_model envNoVariant initialMState).state.status = Status.starting ∧
      (start_model envNoVariant initialMState).state.status ≠ Status.failed) ∧
    ((start_model envGateFail initialMState).ok = false ∧
      (start_model envGateFail initialMState).state.status = Status.starting ∧
      (start_model envGateFail initialMState).state.status ≠ Status.failed) := by
  decide

/-- C7: if the health probe fails during a startup attempt, `start_model`
returns failure carrying the probe's message, a forced `stop_process` is
issued for the recorded pid, and the model ends in `stopped` (not `failed`),
so a later attempt is permitted. -/
theorem start_model_health_failure_stops (env : StartEnv) (st : MState)
    (pid : Nat) (msg : String)
    (hs : st.status = Status.stopped)
    (hl : env.lock_acquired = true)
    (hv : get_adaptive_model_config env.entry (effectiveOnline env) ≠ none)
    (hg : (env.gpu_monitoring_disabled || env.resource_gate_ok) = true)
    (hp : env.process_start = Except.ok pid)
    (hpz : pid ≠ 0)
    (hi : env.interface_found = true)
    (hh : env.health_result = (false, msg)) :
    (start_model env st).ok = false ∧
    (start_model env st).msg = msg ∧
    (start_model env st).state.status = Status.stopped ∧
    (start_model env st).state.pid = none ∧
    PEvent.stop_process true ∈ (start_model env st).events := by
  obtain ⟨cfg, hcfg⟩ := Option.ne_none_iff_exists'.mp hv
  simp only [start_model, hs, hl, if_true]
  simp only [start_model_intelligent, hcfg, hg, if_true]
  simp only [hp]
  simp only [perform_health_checks, hi, hh, if_true]
  simp [stop_model, hpz]

/-- A start environment whose health probe fails. -/
def envHealthFail : StartEnv :=
  { entry := exEntry, online_devices := ["CPU"], gpu_monitoring_disabled := false,
    resource_gate_ok := true, process_start := Except.ok 4242,
    interface_found := true, health_result := (false, "probe timed out"),
    now := 1000, lock_acquired := true, wait_result := (false, "") }

/-- C7 witness: the theorem applied at the concrete failing-probe
environment, every hypothesis discharged by evaluation. -/
theorem start_model_health_failure_stops_witness :
    (start_model envHealthFail initialMState).ok = false ∧
    (start_model envHealthFail initialMState).msg = "probe timed out" ∧
    (start_model envHealthFail initialMState).state.status = Status.stopped ∧
    (start_model envHealthFail initialMState).state.pid = none ∧
    PEvent.stop_process true ∈ (start_model envHealthFail initialMState).events :=
  start_model_health_failure_stops envHealthFail initialMState 4242 "probe timed out"
    rfl rfl (by decide) rfl rfl (by decide) rfl rfl

/-! ### Resource arbiter: eviction candidates

`core/model_controller.py`, `_stop_idle_models_for_resources`
(lines 319-336).  The per-model in-flight counters live in
`APIRouter.pending_requests` (`core/api_router.py`, lines 38-57); the
controller holds no reference to them, so the candidate filter cannot and
does not read them — we carry the counter map as an explicit parameter of
the theorems to state the claim.  (`state.get('current_config', {})` is
modelled as `getD []`; for a routing model the config is always present,
and on a `None` config the Python line would raise instead.) -/

/-- `cfg.get('required_devices', [])` on a run config. -/
def cfgRequiredDevices (cfg : RunConfig) : List String :=
  match cfg.find? (fun kv => kv.1 == "required_devices") with
  | some (_, RunVal.fromEntry (EntryVal.plain (PlainVal.plist l))) => l
  | _ => []

/-- `used.isdisjoint(deficit_devices.keys())`. -/
def disjointDevs (a b : List String) : Bool := a.all (fun x => !b.contains x)

/-- The candidate list: every model whose status is routing and whose
current variant's required devices intersect the deficit set.  No in-flight
counter is consulted. -/
def stopIdleCandidates (models : List (String × MState)) (deficit_devices : List String) :
    List String :=
  (models.filter (fun nm =>
    nm.2.status = Status.routing &&
    !disjointDevs (cfgRequiredDevices (nm.2.current_config.getD [])) deficit_devices)).map
    Prod.fst

/-- The Python sort key `models_state[m].get('last_access', 0) or 0`. -/
def lastAccessKey (models : List (String × MState)) (name : String) : Nat :=
  match models.find? (fun nm => nm.1 == name) with
  | some nm => nm.2.last_access.getD 0
  | none => 0

def insertByKey (key : String → Nat) (x : String) : List String → List String
  | [] => [x]
  | y :: ys => if key x ≤ key y then x :: y :: ys else y :: insertByKey key x ys

/-- Stable ascending sort by key (`candidates.sort(key=...)`). -/
def sortByKey (key : String → Nat) : List String → List String
  | [] => []
  | x :: xs => insertByKey key x (sortByKey key xs)

/-- `_stop_idle_models_for_resources`: sort the candidates by last access
ascending and stop exactly the first one (returns the victim; `none` means
the pass reported failure). -/
def stop_idle_models_for_resources (models : List (String × MState))
    (deficit_devices : List String) : Option String :=
  (sortByKey (lastAccessKey models) (stopIdleCandidates models deficit_devices)).head?

/-- The run config of a model routing on gpu0. -/
def exRunCfgGpu0 : RunConfig :=
  [("mode", RunVal.fromEntry (EntryVal.plain (PlainVal.pstr "Chat"))),
   ("port", RunVal.fromEntry (EntryVal.plain (PlainVal.pnat 9001))),
   ("script_path", RunVal.fromEntry (EntryVal.plain (PlainVal.pstr "run_a.sh"))),
   ("memory_mb", RunVal.mem [("gpu0", 6000)]),
   ("required_devices", RunVal.fromEntry (EntryVal.plain (PlainVal.plist ["gpu0"]))),
   ("config_source", RunVal.fromEntry (EntryVal.plain (PlainVal.pstr "gpu_cfg")))]

/-- State table: model `a` routing on gpu0 (busy — its in-flight counter in
`exPendingsC1` is 1), model `b` stopped. -/
def exModelsC1 : List (String × MState) :=
  [("a", { status := Status.routing, last_access := some 100, pid := some 42,
           current_config := some exRunCfgGpu0, failure_reason := none }),
   ("b", initialMState)]

/-- The in-flight counter map of `APIRouter.pending_requests` for the C1
scenario: model `a` is serving one request. -/
def exPendingsC1 : String → Nat := fun n => if n = "a" then 1 else 0

/-- C1: the claim fails on the code — the evict-to-fit candidate filter
never reads the in-flight counters (the controller has no reference to
`APIRouter.pending_requests`), so a routing model serving a request is
selected as the eviction victim: with model `a` routing on the deficit
device and its counter at 1, `a` is in the candidate list and is the chosen
victim. -/
theorem evict_selects_busy_model :
    stopIdleCandidates exModelsC1 ["gpu0"] = ["a"] ∧
    stop_idle_models_for_resources exModelsC1 ["gpu0"] = some "a" ∧
    exPendingsC1 "a" = 1 := by decide

/-! ### Idle reaper

`core/model_controller.py`, `idle_check_loop` (lines 376-387): one tick
scans every model and stops those with status routing, a truthy
`last_access` and `now - last_access > alive_time` (seconds;
`alive_time = get_alive_time() * 60`, a non-positive value disables the
tick).  The in-flight counter is not consulted. -/

/-- Python truthiness of the `last_access` float (None and 0 are falsy). -/
def pyTruthyTime : Option Nat → Bool
  | some t => t ≠ 0
  | none => false

/-- One reaper tick: the names it calls `stop_model` on. -/
def idle_check_tick (alive_minutes : Int) (now : Int)
    (models : List (String × MState)) : List String :=
  let alive_seconds := alive_minutes * 60
  if alive_seconds ≤ 0 then []
  else
    (models.filter (fun nm =>
      nm.2.status = Status.routing &&
      pyTruthyTime nm.2.last_access &&
      decide (now - Int.ofNat (nm.2.last_access.getD 0) > alive_seconds))).map
      Prod.fst

/-- Model `m` routing, last touched at t=800, currently serving one request
(`exPendingsC3 m = 1`). -/
def exModelsC3 : List (String × MState) :=
  [("m", { status := Status.routing, last_access := some 800, pid := some 7,
           current_config := some exRunCfgGpu0, failure_reason := none })]

/-- In-flight counters for the C3 scenario. -/
def exPendingsC3 : String → Nat := fun n => if n = "m" then 1 else 0

/-- C3: the claim fails on the code — the reaper tick checks only three
conditions (routing, truthy last_access, idle longer than alive_time) and
never reads the in-flight counters, so with alive_time = 1 minute,
now = 1000 and last_access = 800 it stops model `m` even though `m`'s
in-flight counter is 1 at tick time. -/
theorem idle_reaper_stops_busy_model :
    idle_check_tick 1 1000 exModelsC3 = ["m"] ∧
    exPendingsC3 "m" = 1 := by decide

/-! ## Request gateway: in-flight counter conservation

`core/api_router.py`, `APIRouter.route_request` (lines 68-218).  We embed
the control flow of one request as a function from the request's terminal
scenario to the trace of counter operations it performs on
`pending_requests[model]`:
- the checks before the increment (OPTIONS preflight, missing `model`
  field, missing config, missing interface plugin, rejected path) raise
  before `increment_pending_requests` runs;
- the startup-wait loop either exits with the model routing or raises an
  HTTPException when `start_model` fails, which the outer `except` catches
  — it calls `mark_request_completed` and re-raises;
- an exception during proxying (`client.send`) takes the same outer
  `except` path;
- once the `StreamingResponse` is returned, `stream_wrapper`'s `finally`
  block runs on every exit of the stream — normal end, an exception while
  iterating (re-raised after the `except` logging branch), or client
  disconnect (GeneratorExit) — and calls `mark_request_completed` there. -/

inductive GEvent where
  | inc
  | dec
deriving DecidableEq, Repr

/-- How the startup-wait loop of a terminating request ends. -/
inductive StartupOutcome where
  | reachesRouting
  | startFails
deriving DecidableEq, Repr

/-- How the returned response stream terminates. -/
inductive StreamOutcome where
  | normalEnd
  | streamError
  | clientDisconnect
deriving DecidableEq, Repr

/-- Which of the checks before the increment fires (or none). -/
inductive PreGate where
  | optionsPreflight
  | missingModel
  | unknownConfig
  | noInterfacePlugin
  | invalidPath
  | passed
deriving DecidableEq, Repr

structure ReqEnv where
  pre : PreGate
  startup : StartupOutcome
  send_ok : Bool
  stream : StreamOutcome
deriving DecidableEq, Repr

/-- `stream_wrapper` (lines 194-204): the `finally` block — close the
upstream response and `mark_request_completed` — runs on every exit mode of
the generator. -/
def stream_wrapper_events : StreamOutcome → List GEvent
  | StreamOutcome.normalEnd => [GEvent.dec]
  | StreamOutcome.streamError => [GEvent.dec]
  | StreamOutcome.clientDisconnect => [GEvent.dec]

/-- The body of the `try` block after the increment: `Except.error evs`
means an exception escaped the block after emitting `evs`; `Except.ok evs`
means the `StreamingResponse` was returned and `evs` are the events of its
later streaming. -/
def route_request_try_events (env : ReqEnv) : Except (List GEvent) (List GEvent) :=
  match env.startup with
  | StartupOutcome.startFails => Except.error []
  | StartupOutcome.reachesRouting =>
    if env.send_ok then Except.ok (stream_wrapper_events env.stream)
    else Except.error []

/-- The full counter trace of one terminating request:
`increment_pending_requests` after the validation steps, then either the
try body's events or the outer `except` handler's `mark_request_completed`. -/
def route_request_events (env : ReqEnv) : List GEvent :=
  match env.pre with
  | PreGate.passed =>
    GEvent.inc :: (match route_request_try_events env with
      | Except.ok evs => evs
      | Except.error evs => evs ++ [GEvent.dec])
  | _ => []

/-- C4: counter conservation — on every terminal path of a request whose
in-flight counter was incremented (normal stream end, startup failure
raised before the proxy call, an exception during proxying, client
disconnect mid-stream) the decrement runs exactly once, and no request
increments more than once. -/
theorem gateway_counter_conservation (env : ReqEnv)
    (h : GEvent.inc ∈ route_request_events env) :
    (route_request_events env).count GEvent.dec = 1 ∧
    (route_request_events env).count GEvent.inc = 1 := by
  obtain ⟨pre, startup, send_ok, stream⟩ := env
  cases pre <;> cases startup <;> cases send_ok <;> cases stream <;>
    simp_all [route_request_events, route_request_try_events, stream_wrapper_events,
      List.count_cons, List.count_append]

/-- C4 witness: the theorem applied at the concrete happy-path request
(all checks pass, model reaches routing, stream ends normally). -/
theorem gateway_counter_conservation_witness :
    (route_request_events
        ⟨PreGate.passed, StartupOutcome.reachesRouting, true, StreamOutcome.normalEnd⟩).count
      GEvent.dec = 1 :=
  (gateway_counter_conservation
    ⟨PreGate.passed, StartupOutcome.reachesRouting, true, StreamOutcome.normalEnd⟩
    (by decide)).1

/-! ## Device-status cache: snapshot copy depth

`core/plugin_system.py`, `PluginManager.get_device_status_snapshot`
(lines 267-274) returns `{k: v.copy() for k, v in cache.items()}`.
`dict.copy()` is a one-level copy: the fresh per-device dict still holds a
reference to the same nested `info` dict built by
`_update_device_status_once` (lines 242-265).  We make Python reference
semantics explicit with a store mapping addresses to info dicts; a device
entry holds the address of its info dict (or none). -/

/-- The nested per-device info map (`total/available/used` memory fields). -/
abbrev InfoDict := List (String × Nat)

/-- The heap of info dicts. -/
abbrev Store := Nat → InfoDict

structure DevEntry where
  online : Bool
  /-- The reference held under the `info` key. -/
  info_addr : Option Nat
  dtype : String
deriving DecidableEq, Repr

/-- `get_device_status_snapshot`: a fresh outer map whose per-device dicts
are fresh (`v.copy()`), but each copy holds the SAME `info` reference. -/
def get_device_status_snapshot (cache : List (String × DevEntry)) :
    List (String × DevEntry) :=
  cache.map (fun kv =>
    (kv.1, { online := kv.2.online, info_addr := kv.2.info_addr, dtype := kv.2.dtype }))

/-- The info dict a device entry exposes under a given store. -/
def readInfo (store : Store) (e : DevEntry) : Option InfoDict :=
  e.info_addr.map store

/-- In-place mutation of the info dict at an address. -/
def writeStore (store : Store) (addr : Nat) (v : InfoDict) : Store :=
  fun a => if a = addr then v else store a

/-- The cache of the C9 scenario: one online device whose info dict lives
at address 0. -/
def exCache : List (String × DevEntry) :=
  [("gpu0", { online := true, info_addr := some 0, dtype := "RTX4060" })]

/-- The heap of the C9 scenario. -/
def exStore : Store := fun _ =>
  [("total_memory_mb", 8192), ("available_memory_mb", 1000), ("used_memory_mb", 7192)]

/-- The mutated nested info map. -/
def exInfoMut : InfoDict :=
  [("total_memory_mb", 8192), ("available_memory_mb", 0), ("used_memory_mb", 8192)]

/-- C9: the claim fails on the code — `snapshot()` is a one-level copy, not
a deep copy: the snapshot's entry for `gpu0` holds the same `info`
reference (address 0) as the cache's own entry, so mutating the nested info
map through the snapshot changes the info the cache's entry exposes. -/
theorem snapshot_shares_nested_info :
    ((get_device_status_snapshot exCache).find? (fun kv => kv.1 == "gpu0")).map
        (fun kv => kv.2.info_addr) = some (some 0) ∧
    (exCache.find? (fun kv => kv.1 == "gpu0")).map (fun kv => kv.2.info_addr) =
      some (some 0) ∧
    readInfo (writeStore exStore 0 exInfoMut)
        { online := true, info_addr := some 0, dtype := "RTX4060" } = some exInfoMut ∧
    some exInfoMut ≠
      readInfo exStore { online := true, info_addr := some 0, dtype := "RTX4060" } := by
  refine ⟨rfl, rfl, rfl, ?_⟩
  decide

end LLMNode
